import Mathlib

/-!
Verification of the Magi CDP gateway and session multiplexer.

The definitions below are a shallow embedding of the TypeScript sources:

* `CdpSessionManager` models `src/unnamed/part_004` (class `CdpSessionManager`):
  per-page debugger sessions, client attach/detach, request routing and
  debugger-event fan-out.  JavaScript `Map`s and `Set`s are modelled as
  insertion-ordered association lists / lists, matching their iteration order.
* `FleetStore` models `src/unnamed/part_019` (class `BrowserFleetStateStore`).
* The `Gateway` definitions model the browser-scope handlers of
  `src/packages/main/src/cdp/CdpGateway.ts`.

Effects that cross the process boundary (the Electron debugger, WebSocket
writes, `Date.now()`) appear as explicit parameters and output traces: a
handler returns the ordered list of frames it writes, and the outcome of an
awaited debugger call is an input.
-/

namespace Magi

abbrev PageId := String
abbrev ClientId := String
abbrev BrowserId := String
abbrev SessionId := String
abbrev Payload := String

/-- `Map.get` on an insertion-ordered association list. -/
def mapGet {κ ν : Type} [DecidableEq κ] : List (κ × ν) → κ → Option ν
  | [], _ => none
  | (a, b) :: t, k => if a = k then some b else mapGet t k

/-- `Map.set`: overwrite in place when the key exists, append otherwise
(JavaScript `Map` keeps the original insertion position on overwrite). -/
def mapSet {κ ν : Type} [DecidableEq κ] : List (κ × ν) → κ → ν → List (κ × ν)
  | [], k, v => [(k, v)]
  | (a, b) :: t, k, v => if a = k then (k, v) :: t else (a, b) :: mapSet t k v

/-- `Map.delete`. -/
def mapDelete {κ ν : Type} [DecidableEq κ] : List (κ × ν) → κ → List (κ × ν)
  | [], _ => []
  | (a, b) :: t, k => if a = k then t else (a, b) :: mapDelete t k

/-- `Set.add`: no-op when present, append otherwise. -/
def setAdd {α : Type} [DecidableEq α] (l : List α) (x : α) : List α :=
  if x ∈ l then l else l ++ [x]

/-- `Set.delete` / `Map.delete` on a key list. -/
def setRemove {α : Type} [DecidableEq α] : List α → α → List α
  | [], _ => []
  | a :: t, x => if a = x then t else a :: setRemove t x

/-! ## CdpSessionManager (src/unnamed/part_004) -/

/-- A parsed CDP message as read by `handleClientMessage` (interface
`CdpMessage`): optional numeric `id`, optional `method`, opaque params. -/
structure CdpMsg where
  id : Option Int
  method : Option String
  params : Payload
deriving DecidableEq

/-- Outcome of the awaited `webContents.debugger.sendCommand` call. -/
inductive DebOutcome where
  | ok : Payload → DebOutcome
  | err : String → DebOutcome
deriving DecidableEq

/-- A frame written to a client by the session manager:
`{id, result}`, `{id, error:{code,message}}`, or an event `{method, params}`. -/
inductive SmOut where
  | response : Int → Payload → SmOut
  | errorResponse : Int → Int → String → SmOut
  | eventMessage : String → Payload → SmOut
deriving DecidableEq

/-- Interface `DebuggerSession` of part_004: the per-page session record.
`clients` is the `Set<string>` of client ids, `clientsMapKeys` the key set of
the `clientId -> client` map, both in insertion order. -/
structure DebuggerSession where
  clients : List ClientId
  clientsMapKeys : List ClientId
  attached : Bool
  pendingMessages : List (Int × ClientId)
deriving DecidableEq

/-- State of class `CdpSessionManager`: the `pageId -> DebuggerSession` map. -/
structure CdpSessionManager where
  sessions : List (PageId × DebuggerSession)
deriving DecidableEq

/-- `CdpSessionManager.attachClient` (part_004 lines 64-132).  Gets or creates
the session for `pageId`, registers the client in `clients` and `clientsMap`,
and, when the debugger is not yet attached and the WebContents is alive,
attaches it.  `debuggerAttachOk = false` models `webContents.debugger.attach`
throwing; the returned flag `ok` is `false` exactly when the method rethrows
(note the client stays registered in that case). -/
def CdpSessionManager.attachClient (mgr : CdpSessionManager) (pageId : PageId)
    (clientId : ClientId) (wcDestroyed : Bool) (debuggerAttachOk : Bool) :
    CdpSessionManager × Bool :=
  let session0 :=
    match mapGet mgr.sessions pageId with
    | some s => s
    | none => { clients := [], clientsMapKeys := [], attached := false, pendingMessages := [] }
  let session1 :=
    { session0 with
      clients := setAdd session0.clients clientId
      clientsMapKeys := setAdd session0.clientsMapKeys clientId }
  if !session1.attached && !wcDestroyed then
    if debuggerAttachOk then
      (⟨mapSet mgr.sessions pageId { session1 with attached := true }⟩, true)
    else
      (⟨mapSet mgr.sessions pageId session1⟩, false)
  else
    (⟨mapSet mgr.sessions pageId session1⟩, true)

/-- `CdpSessionManager.detachClient` (part_004 lines 137-159): removes the
client; when no clients remain and the debugger was attached, detaches the
debugger and deletes the session record. -/
def CdpSessionManager.detachClient (mgr : CdpSessionManager) (pageId : PageId)
    (clientId : ClientId) : CdpSessionManager :=
  match mapGet mgr.sessions pageId with
  | none => mgr
  | some session =>
    let session1 :=
      { session with
        clients := setRemove session.clients clientId
        clientsMapKeys := setRemove session.clientsMapKeys clientId }
    if session1.clients.length = 0 && session1.attached then
      ⟨mapDelete mgr.sessions pageId⟩
    else
      ⟨mapSet mgr.sessions pageId session1⟩

/-- `CdpSessionManager.handleClientMessage` (part_004 lines 164-310).
`parsed = none` models `JSON.parse` failing; `wcDestroyed` is
`session.webContents.isDestroyed()`; `outcome` is the result of the awaited
`debugger.sendCommand`.  Returns the new state and the ordered list of
`(clientId, frame)` writes performed via `client.send`. -/
def CdpSessionManager.handleClientMessage (mgr : CdpSessionManager) (pageId : PageId)
    (clientId : ClientId) (parsed : Option CdpMsg) (wcDestroyed : Bool)
    (outcome : DebOutcome) : CdpSessionManager × List (ClientId × SmOut) :=
  match mapGet mgr.sessions pageId with
  | none => (mgr, [])
  | some session =>
    if clientId ∈ session.clientsMapKeys then
      match parsed with
      | none => (mgr, [])
      | some msg =>
        match msg.method with
        | none => (mgr, [])
        | some _ =>
          let session1 :=
            match msg.id with
            | some i => { session with pendingMessages := mapSet session.pendingMessages i clientId }
            | none => session
          let effective := if wcDestroyed then DebOutcome.err "WebContents is destroyed" else outcome
          match effective with
          | .ok r =>
            match msg.id with
            | some i =>
              let session2 := { session1 with pendingMessages := mapDelete session1.pendingMessages i }
              (⟨mapSet mgr.sessions pageId session2⟩, [(clientId, SmOut.response i r)])
            | none => (⟨mapSet mgr.sessions pageId session1⟩, [])
          | .err m =>
            match msg.id with
            | some i =>
              let session2 := { session1 with pendingMessages := mapDelete session1.pendingMessages i }
              (⟨mapSet mgr.sessions pageId session2⟩, [(clientId, SmOut.errorResponse i (-32000) m)])
            | none => (⟨mapSet mgr.sessions pageId session1⟩, [])
    else (mgr, [])

/-- `CdpSessionManager.handleDebuggerMessage` (part_004 lines 315-344):
builds one event frame and sends it to every client in `session.clients`
that resolves in `clientsMap`. -/
def CdpSessionManager.handleDebuggerMessage (mgr : CdpSessionManager) (pageId : PageId)
    (method : String) (params : Payload) : List (ClientId × SmOut) :=
  match mapGet mgr.sessions pageId with
  | none => []
  | some session =>
    session.clients.filterMap fun c =>
      if c ∈ session.clientsMapKeys then some (c, SmOut.eventMessage method params) else none

/-! ## Shared helper lemmas -/

theorem filterMap_guard_eq_map {α β : Type} (p : α → Prop) [DecidablePred p]
    (f : α → β) (l : List α) (h : ∀ a ∈ l, p a) :
    (l.filterMap fun a => if p a then some (f a) else none) = l.map f := by
  induction l with
  | nil => simp
  | cons a t ih =>
    simp only [List.filterMap_cons, List.map_cons]
    rw [if_pos (h a (List.mem_cons_self a t)), ih fun x hx => h x (List.mem_cons_of_mem a hx)]

theorem countP_fst_map_pair {α β : Type} [BEq α] [LawfulBEq α]
    (l : List α) (e : β) (hnd : l.Nodup) (c : α) (hc : c ∈ l) :
    ((l.map fun x => (x, e)).countP fun x => x.1 == c) = 1 := by
  induction l with
  | nil => cases hc
  | cons a t ih =>
    rw [List.map_cons, List.countP_cons]
    rcases List.mem_cons.mp hc with rfl | hct
    · have hz : ((t.map fun x => (x, e)).countP fun x => x.1 == c) = 0 := by
        rw [List.countP_eq_zero]
        intro x hx
        rcases List.mem_map.mp hx with ⟨y, hy, rfl⟩
        simp only [beq_iff_eq]
        intro h
        exact (List.nodup_cons.mp hnd).1 (h ▸ hy)
      simp [hz]
    · have ha : (a == c) = false := by
        have hne : a ≠ c := fun h => (List.nodup_cons.mp hnd).1 (h ▸ hct)
        simp [hne]
      simp [ih (List.nodup_cons.mp hnd).2 hct, ha]

/-! ## Claim C1 -/

/-- Claim C1: for every client request routed through
`CdpSessionManager.handleClientMessage` that carries a numeric id, exactly one
response with that id (a success result or an error) is written, and it is
written to the requesting client and to no other client of the page's session:
the handler's whole send list is the singleton `[(clientId, out)]`. -/
theorem handleClientMessage_single_response
    (mgr : CdpSessionManager) (pageId : PageId) (clientId : ClientId)
    (msg : CdpMsg) (wcDestroyed : Bool) (outcome : DebOutcome)
    (session : DebuggerSession) (i : Int) (mth : String)
    (hsession : mapGet mgr.sessions pageId = some session)
    (hclient : clientId ∈ session.clientsMapKeys)
    (hmethod : msg.method = some mth)
    (hid : msg.id = some i) :
    ∃ out : SmOut,
      (mgr.handleClientMessage pageId clientId (some msg) wcDestroyed outcome).2 =
        [(clientId, out)] ∧
      ((∃ r, out = SmOut.response i r) ∨ (∃ e, out = SmOut.errorResponse i (-32000) e)) := by
  unfold CdpSessionManager.handleClientMessage
  rw [hsession]
  cases wcDestroyed with
  | true =>
    refine ⟨SmOut.errorResponse i (-32000) "WebContents is destroyed", ?_, Or.inr ⟨_, rfl⟩⟩
    simp [hclient, hmethod, hid]
  | false =>
    cases outcome with
    | ok r =>
      refine ⟨SmOut.response i r, ?_, Or.inl ⟨r, rfl⟩⟩
      simp [hclient, hmethod, hid]
    | err e =>
      refine ⟨SmOut.errorResponse i (-32000) e, ?_, Or.inr ⟨e, rfl⟩⟩
      simp [hclient, hmethod, hid]

/-- Concrete session-manager state: page `P1` with two attached clients. -/
def smExample : CdpSessionManager :=
  ⟨[("P1", { clients := ["c1", "c2"], clientsMapKeys := ["c1", "c2"], attached := true,
             pendingMessages := [] })]⟩

theorem handleClientMessage_single_response_witness :
    ∃ out : SmOut,
      (smExample.handleClientMessage "P1" "c1"
          (some { id := some 7, method := some "Page.enable", params := "{}" }) false
          (DebOutcome.ok "{}")).2 = [("c1", out)] ∧
      ((∃ r, out = SmOut.response 7 r) ∨ (∃ e, out = SmOut.errorResponse 7 (-32000) e)) :=
  handleClientMessage_single_response smExample "P1" "c1"
    { id := some 7, method := some "Page.enable", params := "{}" } false (DebOutcome.ok "{}")
    { clients := ["c1", "c2"], clientsMapKeys := ["c1", "c2"], attached := true,
      pendingMessages := [] } 7 "Page.enable" (by decide) (by decide) rfl rfl

/-! ## Claim C2 -/

/-- Claim C2: for a page whose session has N distinct attached clients,
`CdpSessionManager.handleDebuggerMessage` delivers every debugger event
exactly N times — once to each attached client, with identical content. -/
theorem handleDebuggerMessage_fanout
    (mgr : CdpSessionManager) (pageId : PageId) (method : String) (params : Payload)
    (session : DebuggerSession)
    (hsession : mapGet mgr.sessions pageId = some session)
    (hnodup : session.clients.Nodup)
    (hkeys : ∀ c ∈ session.clients, c ∈ session.clientsMapKeys) :
    (mgr.handleDebuggerMessage pageId method params).length = session.clients.length ∧
    (mgr.handleDebuggerMessage pageId method params).map Prod.fst = session.clients ∧
    (∀ c ∈ session.clients,
      ((mgr.handleDebuggerMessage pageId method params).countP fun x => x.1 == c) = 1) ∧
    (∀ x ∈ mgr.handleDebuggerMessage pageId method params,
      x.1 ∈ session.clients ∧ x.2 = SmOut.eventMessage method params) := by
  have hsends : mgr.handleDebuggerMessage pageId method params =
      session.clients.map fun c => (c, SmOut.eventMessage method params) := by
    unfold CdpSessionManager.handleDebuggerMessage
    rw [hsession]
    exact filterMap_guard_eq_map _ _ _ hkeys
  rw [hsends]
  refine ⟨List.length_map _ _, ?_, fun c hc => ?_, fun x hx => ?_⟩
  · rw [List.map_map]
    exact List.map_id _
  · exact countP_fst_map_pair _ _ hnodup c hc
  · rcases List.mem_map.mp hx with ⟨c, hc, rfl⟩
    exact ⟨hc, rfl⟩

theorem handleDebuggerMessage_fanout_witness :
    (smExample.handleDebuggerMessage "P1" "Page.loadEventFired" "{}").length = 2 ∧
    (smExample.handleDebuggerMessage "P1" "Page.loadEventFired" "{}").map Prod.fst =
      ["c1", "c2"] ∧
    (∀ c ∈ ["c1", "c2"],
      ((smExample.handleDebuggerMessage "P1" "Page.loadEventFired" "{}").countP
        fun x => x.1 == c) = 1) ∧
    (∀ x ∈ smExample.handleDebuggerMessage "P1" "Page.loadEventFired" "{}",
      x.1 ∈ ["c1", "c2"] ∧ x.2 = SmOut.eventMessage "Page.loadEventFired" "{}") :=
  handleDebuggerMessage_fanout smExample "P1" "Page.loadEventFired" "{}"
    { clients := ["c1", "c2"], clientsMapKeys := ["c1", "c2"], attached := true,
      pendingMessages := [] } (by decide) (by decide) (by decide)

/-! ## BrowserFleetStateStore (src/unnamed/part_019) -/

/-- The fields of `ManagedPageModel` relevant to ordering and activity. -/
structure PageModel where
  pageId : PageId
  browserId : BrowserId
  isActive : Bool
deriving DecidableEq

/-- The fields of `ManagedBrowserModel` relevant to the claims. -/
structure BrowserModel where
  browserId : BrowserId
  activePageId : Option PageId
  pageCount : Nat
deriving DecidableEq

/-- State of class `BrowserFleetStateStore`: the `browsers` and `pages` maps,
in insertion order. -/
structure FleetStore where
  browsers : List (BrowserId × BrowserModel)
  pages : List (PageId × PageModel)
deriving DecidableEq

/-- `getPagesForBrowser` applied to a given `pages` map:
`Array.from(pages.values()).filter(p => p.browserId === browserId)`. -/
def pagesForBrowserIn (pages : List (PageId × PageModel)) (browserId : BrowserId) :
    List PageModel :=
  (pages.filter fun kv => kv.2.browserId == browserId).map Prod.snd

/-- `BrowserFleetStateStore.getPagesForBrowser` (part_019 lines 188-190). -/
def FleetStore.getPagesForBrowser (st : FleetStore) (browserId : BrowserId) : List PageModel :=
  pagesForBrowserIn st.pages browserId

/-- `BrowserFleetStateStore.removePage` (part_019 lines 220-245): deletes the
page; updates the owning browser's page count; when the removed page was the
active one, promotes `remainingPages[0]?.pageId ?? null` and sets the promoted
page's `isActive` flag. -/
def FleetStore.removePage (st : FleetStore) (browserId : BrowserId) (pageId : PageId) :
    FleetStore :=
  match mapGet st.pages pageId with
  | none => st
  | some _ =>
    let pages1 := mapDelete st.pages pageId
    match mapGet st.browsers browserId with
    | none => { st with pages := pages1 }
    | some browser =>
      let remaining := pagesForBrowserIn pages1 browserId
      let browser1 := { browser with pageCount := remaining.length }
      if browser1.activePageId = some pageId then
        let newActive := remaining.head?.map fun p => p.pageId
        let browser2 := { browser1 with activePageId := newActive }
        let pages2 :=
          match newActive with
          | some na =>
            match mapGet pages1 na with
            | some p => mapSet pages1 na { p with isActive := true }
            | none => pages1
          | none => pages1
        { browsers := mapSet st.browsers browserId browser2, pages := pages2 }
      else
        { browsers := mapSet st.browsers browserId browser1, pages := pages1 }

/-- The browser's `activePageId` as exposed by the store. -/
def FleetStore.activePageOf (st : FleetStore) (browserId : BrowserId) : Option PageId :=
  (mapGet st.browsers browserId).bind fun b => b.activePageId

theorem mapGet_mapSet_self {κ ν : Type} [DecidableEq κ] :
    ∀ (l : List (κ × ν)) (k : κ) (v : ν), mapGet (mapSet l k v) k = some v
  | [], _, _ => by simp [mapSet, mapGet]
  | (a, b) :: t, k, v => by
    by_cases h : a = k
    · simp [mapSet, mapGet, h]
    · simp [mapSet, mapGet, h, mapGet_mapSet_self t k v]

/-! ## Claim C3 -/

/-- Browser `B` with pages `[P1, P2, P3]` in order, `P2` active. -/
def fleet3 : FleetStore :=
  { browsers := [("B", { browserId := "B", activePageId := some "P2", pageCount := 3 })],
    pages := [("P1", { pageId := "P1", browserId := "B", isActive := false }),
              ("P2", { pageId := "P2", browserId := "B", isActive := true }),
              ("P3", { pageId := "P3", browserId := "B", isActive := false })] }

/-- Claim C3 counterexample: with pages `[P1, P2, P3]` and active page `P2`,
removing `P2` makes `P1` — not the right neighbour `P3` — the active page.
The claimed right-neighbour rule fails at this input. -/
theorem removePage_not_right_neighbor :
    (fleet3.removePage "B" "P2").activePageOf "B" = some "P1" ∧
    (fleet3.removePage "B" "P2").activePageOf "B" ≠ some "P3" := by
  decide

/-- Claim C3 (amended): when the removed page was the browser's active page,
`BrowserFleetStateStore.removePage` promotes the page `remainingPages[0]` —
the first remaining page of the browser in stored insertion order, regardless
of the removed page's position — and null when no page remains. -/
theorem removePage_promotes_first_remaining
    (st : FleetStore) (browserId : BrowserId) (pageId : PageId)
    {pg : PageModel} {browser : BrowserModel}
    (hpg : mapGet st.pages pageId = some pg)
    (hbr : mapGet st.browsers browserId = some browser)
    (hactive : browser.activePageId = some pageId) :
    (st.removePage browserId pageId).activePageOf browserId =
      (pagesForBrowserIn (mapDelete st.pages pageId) browserId).head?.map (fun p => p.pageId) := by
  simp only [FleetStore.removePage, hpg, hbr, hactive]
  simp [FleetStore.activePageOf, mapGet_mapSet_self]

theorem removePage_promotes_first_remaining_witness :
    (fleet3.removePage "B" "P2").activePageOf "B" =
      (pagesForBrowserIn (mapDelete fleet3.pages "P2") "B").head?.map (fun p => p.pageId) :=
  removePage_promotes_first_remaining fleet3 "B" "P2" rfl rfl rfl

/-! ## CdpGateway (src/packages/main/src/cdp/CdpGateway.ts) -/

/-- A frame written by a browser-scope handler to its WebSocket client. -/
inductive GWrite where
  | respSession : Int → SessionId → GWrite
  | respError : Int → Int → String → GWrite
  | respEmpty : Int → GWrite
  | respTargetId : Int → PageId → GWrite
  | evAttachedToTarget : SessionId → PageId → GWrite
  | evTargetCreated : PageId → GWrite
  | evTargetDestroyed : PageId → GWrite
  | evReceivedFromTarget : SessionId → Payload → PageId → GWrite
  | evDetachedFromTarget : SessionId → PageId → GWrite
deriving DecidableEq

/-- A frame originating from a page session reaches the browser connection
only through the `send` callback registered by `attachClient`, which wraps it
as `Target.receivedMessageFromTarget`. -/
def GWrite.fromSession : GWrite → Bool
  | .evReceivedFromTarget _ _ _ => true
  | _ => false

def GWrite.isErrorResponse : GWrite → Bool
  | .respError _ _ _ => true
  | _ => false

def GWrite.isAttachedEvent : GWrite → Bool
  | .evAttachedToTarget _ _ => true
  | _ => false

/-- Per-connection state (interface `WebSocketClient`). -/
structure WsClient where
  browserId : Option BrowserId
  pageId : Option PageId
  discoverTargets : Bool
  attachedTargets : List PageId
deriving DecidableEq

/-- Session-id allocation used by `handleAttachToTarget` (line 1236),
`handleCreateTarget` (line 1088) and `handleSetAutoAttach` (line 1489):
`` `${targetId}-session-${Date.now()}` ``. -/
def mkSessionId (targetId : PageId) (now : Nat) : SessionId :=
  targetId ++ "-session-" ++ toString now

/-- `sessionId.split('-session-')[0]`: the characters before the first
occurrence of `-session-` (the whole string when the separator is absent). -/
def takeUntilSep (sep : List Char) : List Char → List Char
  | [] => []
  | c :: t => if sep.isPrefixOf (c :: t) then [] else c :: takeUntilSep sep t

def sessionIdTarget (s : SessionId) : PageId :=
  String.mk (takeUntilSep "-session-".toList s.toList)

/-- Combined result of `handleAttachToTarget`: the connection state, the
session-manager state, and the ordered frames written to this connection. -/
structure AttachResult where
  client : WsClient
  sm : CdpSessionManager
  writes : List GWrite
deriving DecidableEq

/-- `CdpGateway.handleAttachToTarget` (lines 1197-1344).  `fleetPages` models
`fleetManager.getPage` lookups; `now` is `Date.now()`; `wcDestroyed` and
`debuggerAttachOk` feed the awaited `sessionManager.attachClient` call, whose
clientId is the freshly allocated sessionId.  The `{sessionId}` response is
written before the attach is attempted; `Target.attachedToTarget` is written
after it completes, and not at all when it throws. -/
def CdpGateway.handleAttachToTarget (client : WsClient) (sm : CdpSessionManager)
    (fleetPages : List PageId) (msgId : Int) (targetId? : Option PageId) (flatten : Bool)
    (now : Nat) (wcDestroyed : Bool) (debuggerAttachOk : Bool) : AttachResult :=
  match targetId? with
  | none => ⟨client, sm, [GWrite.respError msgId (-32602) "Missing targetId parameter"]⟩
  | some targetId =>
    if targetId = "" then
      ⟨client, sm, [GWrite.respError msgId (-32602) "Missing targetId parameter"]⟩
    else if targetId ∈ fleetPages then
      let sessionId := mkSessionId targetId now
      let client1 := { client with attachedTargets := setAdd client.attachedTargets targetId }
      if flatten then
        let res := sm.attachClient targetId sessionId wcDestroyed debuggerAttachOk
        if res.2 then
          ⟨client1, res.1, [GWrite.respSession msgId sessionId,
                            GWrite.evAttachedToTarget sessionId targetId]⟩
        else
          ⟨client1, res.1, [GWrite.respSession msgId sessionId]⟩
      else
        ⟨client1, sm, [GWrite.respSession msgId sessionId,
                       GWrite.evAttachedToTarget sessionId targetId]⟩
    else
      ⟨client, sm, [GWrite.respError msgId (-32000) ("Target not found: " ++ targetId)]⟩

theorem attachClient_snd_true (sm : CdpSessionManager) (p : PageId) (c : ClientId) (w : Bool) :
    (sm.attachClient p c w true).2 = true := by
  unfold CdpSessionManager.attachClient
  split <;> dsimp only <;> split <;> rfl

theorem attachClient_snd_false_of_fresh (sm : CdpSessionManager) (p : PageId) (c : ClientId)
    (h : mapGet sm.sessions p = none) : (sm.attachClient p c false false).2 = false := by
  unfold CdpSessionManager.attachClient
  rw [h]
  rfl

/-! ## Claim C4 -/

/-- Claim C4: for a `Target.attachToTarget` whose target page exists and whose
debugger attach succeeds, the handler writes exactly the `{sessionId}`
response followed by the `Target.attachedToTarget` event, and no frame of the
new session appears among the handler's writes — session frames can only be
appended to the connection after the handler completes (JavaScript
run-to-completion), hence both frames precede every frame of that session. -/
theorem attachToTarget_response_precedes_event
    (client : WsClient) (sm : CdpSessionManager) (fleetPages : List PageId)
    (msgId : Int) (targetId : PageId) (flatten : Bool) (now : Nat) (wcDestroyed : Bool)
    (hne : targetId ≠ "") (hmem : targetId ∈ fleetPages) :
    (CdpGateway.handleAttachToTarget client sm fleetPages msgId (some targetId) flatten now
        wcDestroyed true).writes =
      [GWrite.respSession msgId (mkSessionId targetId now),
       GWrite.evAttachedToTarget (mkSessionId targetId now) targetId] ∧
    ∀ w ∈ (CdpGateway.handleAttachToTarget client sm fleetPages msgId (some targetId) flatten now
        wcDestroyed true).writes, w.fromSession = false := by
  have hw : (CdpGateway.handleAttachToTarget client sm fleetPages msgId (some targetId) flatten
      now wcDestroyed true).writes =
      [GWrite.respSession msgId (mkSessionId targetId now),
       GWrite.evAttachedToTarget (mkSessionId targetId now) targetId] := by
    unfold CdpGateway.handleAttachToTarget
    dsimp only
    rw [if_neg hne, if_pos hmem]
    cases flatten with
    | false => rfl
    | true => simp [attachClient_snd_true]
  refine ⟨hw, ?_⟩
  rw [hw]
  intro w hwmem
  rcases List.mem_cons.mp hwmem with rfl | hwmem
  · rfl
  · rcases List.mem_cons.mp hwmem with rfl | hwmem
    · rfl
    · cases hwmem

/-- Browser-scope connection used by the concrete gateway scenarios. -/
def wsClientB : WsClient :=
  { browserId := some "B", pageId := none, discoverTargets := false, attachedTargets := [] }

theorem attachToTarget_response_precedes_event_witness :
    (CdpGateway.handleAttachToTarget wsClientB ⟨[]⟩ ["P1"] 10 (some "P1") true 7
        false true).writes =
      [GWrite.respSession 10 (mkSessionId "P1" 7),
       GWrite.evAttachedToTarget (mkSessionId "P1" 7) "P1"] ∧
    ∀ w ∈ (CdpGateway.handleAttachToTarget wsClientB ⟨[]⟩ ["P1"] 10 (some "P1") true 7
        false true).writes, w.fromSession = false :=
  attachToTarget_response_precedes_event wsClientB ⟨[]⟩ ["P1"] 10 "P1" true 7 false
    (by decide) (by decide)

/-! ## Claim C5 -/

/-- Claim C5 counterexample: when the debugger attachment fails (fresh page
session, `webContents.debugger.attach` throws), the client does NOT receive a
`-32000` error response: the only frame written is the earlier `{sessionId}`
success response, sent before the attach was attempted.  Only the other half
of the claim — no `Target.attachedToTarget` event — holds. -/
theorem attachToTarget_failure_sends_no_error :
    (CdpGateway.handleAttachToTarget wsClientB ⟨[]⟩ ["P1"] 10 (some "P1") true 7
        false false).writes = [GWrite.respSession 10 "P1-session-7"] ∧
    ((CdpGateway.handleAttachToTarget wsClientB ⟨[]⟩ ["P1"] 10 (some "P1") true 7
        false false).writes.all fun w => !w.isErrorResponse) = true := by
  decide

/-- Claim C5 (amended): for a `Target.attachToTarget` whose underlying
debugger attachment fails on a page with no prior session, the handler emits
no `Target.attachedToTarget` event and also no error response; the client
receives only the `{sessionId}` response that was already written before the
attach was attempted. -/
theorem attachToTarget_failure_silent
    (client : WsClient) (sm : CdpSessionManager) (fleetPages : List PageId)
    (msgId : Int) (targetId : PageId) (now : Nat)
    (hne : targetId ≠ "") (hmem : targetId ∈ fleetPages)
    (hfresh : mapGet sm.sessions targetId = none) :
    (CdpGateway.handleAttachToTarget client sm fleetPages msgId (some targetId) true now
        false false).writes = [GWrite.respSession msgId (mkSessionId targetId now)] ∧
    ((CdpGateway.handleAttachToTarget client sm fleetPages msgId (some targetId) true now
        false false).writes.all fun w => !w.isErrorResponse && !w.isAttachedEvent) = true := by
  have hw : (CdpGateway.handleAttachToTarget client sm fleetPages msgId (some targetId) true now
      false false).writes = [GWrite.respSession msgId (mkSessionId targetId now)] := by
    unfold CdpGateway.handleAttachToTarget
    dsimp only
    rw [if_neg hne, if_pos hmem]
    simp [attachClient_snd_false_of_fresh _ _ _ hfresh]
  exact ⟨hw, by rw [hw]; rfl⟩

theorem attachToTarget_failure_silent_witness :
    (CdpGateway.handleAttachToTarget wsClientB ⟨[]⟩ ["P2"] 4 (some "P2") true 9
        false false).writes = [GWrite.respSession 4 (mkSessionId "P2" 9)] ∧
    ((CdpGateway.handleAttachToTarget wsClientB ⟨[]⟩ ["P2"] 4 (some "P2") true 9
        false false).writes.all fun w => !w.isErrorResponse && !w.isAttachedEvent) = true :=
  attachToTarget_failure_silent wsClientB ⟨[]⟩ ["P2"] 4 "P2" 9 (by decide) (by decide) rfl

/-! ## Claim C6 -/

/-- Claim C6 (code bug): session ids are allocated from the wall clock
(`Date.now()`), so two distinct attach requests (CDP ids 10 and 11) for the
same page within one millisecond tick (here 1000) are both answered with the
identical sessionId `P1-session-1000` — session ids are not unique per
allocation as the claim requires. -/
theorem sessionId_collision_same_tick :
    (CdpGateway.handleAttachToTarget wsClientB ⟨[]⟩ ["P1"] 10 (some "P1") false 1000
        false true).writes.head? = some (GWrite.respSession 10 "P1-session-1000") ∧
    (CdpGateway.handleAttachToTarget wsClientB ⟨[]⟩ ["P1"] 11 (some "P1") false 1000
        false true).writes.head? = some (GWrite.respSession 11 "P1-session-1000") := by
  decide

/-! ## Claim C9 -/

/-- `CdpGateway.handleSetDiscoverTargets` (lines 990-1028): stores the flag on
the connection, responds `{}`, and — when discovery was turned on and the
browser is found — emits one `Target.targetCreated` per page of
`browser.pagesList`, in list order, after the response. -/
def CdpGateway.handleSetDiscoverTargets (client : WsClient)
    (browserPages : Option (List PageId)) (msgId : Int) (discover : Bool) :
    WsClient × List GWrite :=
  let client1 := { client with discoverTargets := discover }
  let writes :=
    GWrite.respEmpty msgId ::
      (if discover then
        match browserPages with
        | some ps => ps.map GWrite.evTargetCreated
        | none => []
      else [])
  (client1, writes)

/-- Claim C9: `Target.setDiscoverTargets {discover:true}` on a browser-scope
connection whose browser exists sets the connection's discover flag, answers
`{}`, and then emits exactly one `Target.targetCreated` per page currently in
the browser, in page-list order. -/
theorem setDiscoverTargets_replays_existing_pages
    (client : WsClient) (ps : List PageId) (msgId : Int) :
    (CdpGateway.handleSetDiscoverTargets client (some ps) msgId true).1.discoverTargets = true ∧
    (CdpGateway.handleSetDiscoverTargets client (some ps) msgId true).2 =
      GWrite.respEmpty msgId :: ps.map GWrite.evTargetCreated := by
  exact ⟨rfl, rfl⟩

/-! ## Claim C10 -/

/-- The browser-scope methods with dedicated cases in `handleBrowserMessage`'s
switch (lines 709-751). -/
def handledMethods : List String :=
  ["Browser.getVersion", "Browser.setDownloadBehavior", "Target.getBrowserContexts",
   "Target.createBrowserContext", "Target.disposeBrowserContext", "Target.setDiscoverTargets",
   "Target.createTarget", "Target.closeTarget", "Target.attachToTarget",
   "Target.sendMessageToTarget", "Target.detachFromTarget", "Target.getTargets",
   "Target.getTargetInfo", "Target.setAutoAttach"]

/-- A browser-scope message as typed by the gateway's `CdpMessage` interface,
with the two places a `sessionId` may occur. -/
structure BrowserMsg where
  id : Int
  method : String
  sessionId : Option String
  paramsSessionId : Option String
deriving DecidableEq

/-- JavaScript truthiness of an optional string: absent and `""` are falsy. -/
def truthy : Option String → Option String
  | some s => if s = "" then none else some s
  | none => none

/-- `(msg as any).sessionId || (msg.params as any)?.sessionId` followed by the
`if (sessionId)` truthiness test (lines 755-756). -/
def BrowserMsg.effectiveSessionId (m : BrowserMsg) : Option String :=
  match truthy m.sessionId with
  | some s => some s
  | none => truthy m.paramsSessionId

/-- Result of the default arm of `handleBrowserMessage` (lines 752-783):
either the raw message is forwarded to
`sessionManager.handleClientMessage(targetId, sessionId, message)` with no
direct response, or a `-32601` error response is written. -/
structure DefaultDispatch where
  forwardedTo : Option (PageId × String × Payload)
  writes : List GWrite
deriving DecidableEq

def CdpGateway.handleBrowserMessageDefault (m : BrowserMsg) (raw : Payload) : DefaultDispatch :=
  match m.effectiveSessionId with
  | some sid => { forwardedTo := some (sessionIdTarget sid, sid, raw), writes := [] }
  | none =>
    { forwardedTo := none,
      writes := [GWrite.respError m.id (-32601) ("Method not found: " ++ m.method)] }

/-- `CdpGateway.handleBrowserMessage` restricted to the dispatch decision:
`none` when a dedicated case handles the method, otherwise the default arm. -/
def CdpGateway.handleBrowserMessage (m : BrowserMsg) (raw : Payload) : Option DefaultDispatch :=
  if m.method ∈ handledMethods then none
  else some (CdpGateway.handleBrowserMessageDefault m raw)

/-- Claim C10: a browser-scope message whose method has no dedicated handler
is routed by `sessionId`: when the message carries a (truthy) `sessionId`,
top-level or in params, the raw message is forwarded to the session manager
keyed by the page id recovered as the sessionId's prefix before `-session-`,
and the gateway writes no direct response; when it carries none, the gateway
answers with error code `-32601`. -/
theorem browserMessage_default_routing (m : BrowserMsg) (raw : Payload)
    (hunhandled : m.method ∉ handledMethods) :
    (∀ sid, m.effectiveSessionId = some sid →
      CdpGateway.handleBrowserMessage m raw =
        some { forwardedTo := some (sessionIdTarget sid, sid, raw), writes := [] }) ∧
    (m.effectiveSessionId = none →
      CdpGateway.handleBrowserMessage m raw =
        some { forwardedTo := none,
               writes := [GWrite.respError m.id (-32601)
                            ("Method not found: " ++ m.method)] }) := by
  unfold CdpGateway.handleBrowserMessage CdpGateway.handleBrowserMessageDefault
  rw [if_neg hunhandled]
  constructor
  · intro sid hsid
    rw [hsid]
  · intro hnone
    rw [hnone]

theorem browserMessage_default_routing_witness :
    (CdpGateway.handleBrowserMessage
        { id := 11, method := "Page.enable", sessionId := some "P1-session-1000",
          paramsSessionId := none } "RAW" =
      some { forwardedTo := some ("P1", "P1-session-1000", "RAW"), writes := [] }) ∧
    (CdpGateway.handleBrowserMessage
        { id := 12, method := "Page.enable", sessionId := none, paramsSessionId := none }
        "RAW" =
      some { forwardedTo := none,
             writes := [GWrite.respError 12 (-32601) "Method not found: Page.enable"] }) := by
  constructor
  · have h := (browserMessage_default_routing
      { id := 11, method := "Page.enable", sessionId := some "P1-session-1000",
        paramsSessionId := none } "RAW" (by decide)).1 "P1-session-1000" (by decide)
    rw [h]
    decide
  · exact (browserMessage_default_routing
      { id := 12, method := "Page.enable", sessionId := none, paramsSessionId := none }
      "RAW" (by decide)).2 (by decide)

/-! ## ManagedBrowser (src/packages/main/src/fleet/ManagedBrowser.ts) -/

/-- The insert-after rebuild of `ManagedBrowser.createPage` (lines 130-154):
walk the existing `pages` map entries, re-inserting each, and place the new
page right behind the entry whose key equals `afterPageId`. -/
def insertAfterPages (pages : List PageId) (afterId newId : PageId) : List PageId :=
  match pages with
  | [] => []
  | p :: t => if p = afterId then p :: newId :: t else p :: insertAfterPages t afterId newId

/-- What `ManagedBrowser.createPage` produces for the page order: the
returned page, the new key order of `this.pages`, and whether the
afterPageId-not-found fallback (which logs) was taken. -/
structure CreatePageResult where
  returnedPageId : PageId
  pageIds : List PageId
  loggedFallback : Bool
deriving DecidableEq

/-- `ManagedBrowser.createPage` (lines 81-179) restricted to its page-order
effect: insert after `afterPageId` when that key is present in `this.pages`,
otherwise append at the end (logging when an `afterPageId` was given but not
found); the new `ManagedPage` is returned. -/
def ManagedBrowser.createPage (pages : List PageId) (newId : PageId)
    (afterPageId : Option PageId) : CreatePageResult :=
  match afterPageId with
  | some a =>
    if a ∈ pages then { returnedPageId := newId, pageIds := insertAfterPages pages a newId,
                        loggedFallback := false }
    else { returnedPageId := newId, pageIds := pages ++ [newId], loggedFallback := true }
  | none => { returnedPageId := newId, pageIds := pages ++ [newId], loggedFallback := false }

/-- Modelled from the spec: `BrowserFleetStateStore.setPageOrder` is called by
`ManagedBrowser.syncPageOrder` (ManagedBrowser.ts lines 287-297) but its
definition is not among the provided sources of `@magi/shared-state`.  Per the
spec (§3 invariant 3 and §4.1), the store maintains each browser's ordered
page-id list as the target-list order exposed to clients; the model records
the pushed id list as that exposed order. -/
structure PageOrderStore where
  orders : List (BrowserId × List PageId)
deriving DecidableEq

def PageOrderStore.setPageOrder (st : PageOrderStore) (browserId : BrowserId)
    (pageIds : List PageId) : PageOrderStore :=
  ⟨mapSet st.orders browserId pageIds⟩

def PageOrderStore.exposedOrder (st : PageOrderStore) (browserId : BrowserId) : List PageId :=
  (mapGet st.orders browserId).getD []

/-- `ManagedBrowser.createPage` followed by `syncPageOrder`, which pushes
`Array.from(this.pages.keys())` into the store via `setPageOrder`. -/
def ManagedBrowser.createPageAndSync (st : PageOrderStore) (browserId : BrowserId)
    (pages : List PageId) (newId : PageId) (afterPageId : Option PageId) :
    CreatePageResult × PageOrderStore :=
  let r := ManagedBrowser.createPage pages newId afterPageId
  (r, st.setPageOrder browserId r.pageIds)

theorem insertAfterPages_decomp (pre post : List PageId) (a newId : PageId) (hpre : a ∉ pre) :
    insertAfterPages (pre ++ a :: post) a newId = pre ++ a :: newId :: post := by
  induction pre with
  | nil => simp [insertAfterPages]
  | cons p t ih =>
    have hp : p ≠ a := fun h => hpre (h ▸ List.mem_cons_self p t)
    have ih2 := ih fun h => hpre (List.mem_cons_of_mem p h)
    simp [insertAfterPages, hp, ih2]

theorem insertAfterPages_perm (a newId : PageId) :
    ∀ pages : List PageId, a ∈ pages →
      List.Perm (insertAfterPages pages a newId) (newId :: pages) := by
  intro pages
  induction pages with
  | nil => intro h; cases h
  | cons p t ih =>
    intro ha
    by_cases h : p = a
    · subst h
      simp only [insertAfterPages, if_pos rfl]
      exact List.Perm.swap newId p t
    · have ht : a ∈ t := by
        rcases List.mem_cons.mp ha with h1 | h2
        · exact absurd h1.symm h
        · exact h2
      simp only [insertAfterPages, if_neg h]
      exact List.Perm.trans (List.Perm.cons p (ih ht)) (List.Perm.swap newId p t)

/-! ## Claim C7 -/

/-- Claim C7: creating a page with an `afterPageId` inserts the new page
immediately after that page when it belongs to the browser, and appends it at
the end with a logged fallback when it does not; in both cases the new page is
returned, the synced order is what the store exposes, and the order remains
duplicate-free. -/
theorem createPage_insertion_order
    (st : PageOrderStore) (browserId : BrowserId) (pages : List PageId)
    (newId : PageId) (afterPageId : Option PageId)
    (hfresh : newId ∉ pages) (hnd : pages.Nodup) :
    (ManagedBrowser.createPage pages newId afterPageId).returnedPageId = newId ∧
    ((ManagedBrowser.createPageAndSync st browserId pages newId afterPageId).2.exposedOrder
        browserId = (ManagedBrowser.createPage pages newId afterPageId).pageIds) ∧
    (ManagedBrowser.createPage pages newId afterPageId).pageIds.Nodup ∧
    (∀ a, afterPageId = some a → a ∈ pages →
      ∃ pre post, pages = pre ++ a :: post ∧
        (ManagedBrowser.createPage pages newId afterPageId).pageIds =
          pre ++ a :: newId :: post ∧
        (ManagedBrowser.createPage pages newId afterPageId).loggedFallback = false) ∧
    (∀ a, afterPageId = some a → a ∉ pages →
      (ManagedBrowser.createPage pages newId afterPageId).pageIds = pages ++ [newId] ∧
      (ManagedBrowser.createPage pages newId afterPageId).loggedFallback = true) ∧
    (afterPageId = none →
      (ManagedBrowser.createPage pages newId afterPageId).pageIds = pages ++ [newId]) := by
  have hperm :
      List.Perm (ManagedBrowser.createPage pages newId afterPageId).pageIds (newId :: pages) := by
    match afterPageId with
    | none => exact List.perm_append_singleton newId pages
    | some a =>
      by_cases h : a ∈ pages
      · simp only [ManagedBrowser.createPage, if_pos h]
        exact insertAfterPages_perm a newId pages h
      · simp only [ManagedBrowser.createPage, if_neg h]
        exact List.perm_append_singleton newId pages
  refine ⟨?_, ?_, ?_, ?_, ?_, ?_⟩
  · match afterPageId with
    | none => rfl
    | some a => by_cases h : a ∈ pages <;> simp [ManagedBrowser.createPage, h]
  · unfold ManagedBrowser.createPageAndSync PageOrderStore.setPageOrder
      PageOrderStore.exposedOrder
    rw [mapGet_mapSet_self]
    rfl
  · exact hperm.symm.nodup (List.nodup_cons.mpr ⟨hfresh, hnd⟩)
  · rintro a rfl hmem
    rcases List.append_of_mem hmem with ⟨pre, post, rfl⟩
    have hpre : a ∉ pre := by
      rcases List.nodup_append.mp hnd with ⟨-, -, hdisj⟩
      intro hin
      exact hdisj hin (List.mem_cons_self a post)
    refine ⟨pre, post, rfl, ?_, ?_⟩
    · simp only [ManagedBrowser.createPage, if_pos hmem]
      exact insertAfterPages_decomp pre post a newId hpre
    · simp [ManagedBrowser.createPage, hmem]
  · rintro a rfl hnotmem
    exact ⟨by simp [ManagedBrowser.createPage, hnotmem], by simp [ManagedBrowser.createPage, hnotmem]⟩
  · rintro rfl
    rfl

theorem createPage_insertion_order_witness :
    (ManagedBrowser.createPage ["P1", "P2"] "P3" (some "P1")).returnedPageId = "P3" ∧
    ((ManagedBrowser.createPageAndSync ⟨[]⟩ "B" ["P1", "P2"] "P3" (some "P1")).2.exposedOrder
        "B" = (ManagedBrowser.createPage ["P1", "P2"] "P3" (some "P1")).pageIds) ∧
    (ManagedBrowser.createPage ["P1", "P2"] "P3" (some "P1")).pageIds.Nodup ∧
    (∀ a, (some "P1" : Option PageId) = some a → a ∈ ["P1", "P2"] →
      ∃ pre post, ["P1", "P2"] = pre ++ a :: post ∧
        (ManagedBrowser.createPage ["P1", "P2"] "P3" (some "P1")).pageIds =
          pre ++ a :: "P3" :: post ∧
        (ManagedBrowser.createPage ["P1", "P2"] "P3" (some "P1")).loggedFallback = false) ∧
    (∀ a, (some "P1" : Option PageId) = some a → a ∉ ["P1", "P2"] →
      (ManagedBrowser.createPage ["P1", "P2"] "P3" (some "P1")).pageIds = ["P1", "P2", "P3"] ∧
      (ManagedBrowser.createPage ["P1", "P2"] "P3" (some "P1")).loggedFallback = true) ∧
    ((some "P1" : Option PageId) = none →
      (ManagedBrowser.createPage ["P1", "P2"] "P3" (some "P1")).pageIds = ["P1", "P2", "P3"]) :=
  createPage_insertion_order ⟨[]⟩ "B" ["P1", "P2"] "P3" (some "P1") (by decide) (by decide)

/-! ## Claim C8 -/

/-- Combined state touched by the page-close path: the fleet store, each
`ManagedBrowser`'s page map keys, the session manager, and which pages'
WebContents have been destroyed. -/
structure FleetApp where
  store : FleetStore
  browserPages : List (BrowserId × List PageId)
  sm : CdpSessionManager
  destroyedWC : List PageId
deriving DecidableEq

/-- `BrowserFleetManager.closePage` (lines 339-356) composed with
`ManagedBrowser.removePage` (lines 207-227) and `ManagedPage.destroy`:
destroys the page's WebContents, removes the page from the browser's map and
from the store (which selects the successor active page), then broadcasts
`Target.targetDestroyed`.  The page-order resync only reorders the store and
is elided.  No call in this whole path reaches the `CdpSessionManager`. -/
def FleetApp.closePage (app : FleetApp) (browserId : BrowserId) (pageId : PageId) : FleetApp :=
  match mapGet app.browserPages browserId with
  | none => app
  | some pids =>
    if pageId ∈ pids then
      { app with
        destroyedWC := pageId :: app.destroyedWC
        browserPages := mapSet app.browserPages browserId (setRemove pids pageId)
        store := app.store.removePage browserId pageId }
    else app

/-- Concrete app state: page `P1` open in browser `B`, with a live multiplexer
session carrying one attached client `c1`. -/
def appEx : FleetApp :=
  { store := { browsers := [("B", { browserId := "B", activePageId := some "P1", pageCount := 1 })],
               pages := [("P1", { pageId := "P1", browserId := "B", isActive := true })] },
    browserPages := [("B", ["P1"])],
    sm := ⟨[("P1", { clients := ["c1"], clientsMapKeys := ["c1"], attached := true,
                     pendingMessages := [] })]⟩,
    destroyedWC := [] }

/-- Claim C8 counterexample: after closing page `P1`, the session manager
still holds the session for `P1` together with its attached client — page
destruction does not cancel the page's multiplexer sessions. -/
theorem closePage_leaves_session_registered :
    mapGet (appEx.closePage "B" "P1").sm.sessions "P1" =
      some { clients := ["c1"], clientsMapKeys := ["c1"], attached := true,
             pendingMessages := [] } := by
  decide

/-- Claim C8 (amended): the page-close path never touches the session
manager: `closePage` leaves the session table unchanged, so sessions on the
destroyed page persist (the page's WebContents is destroyed, which kills the
underlying debugger binding, but the session records and their clients remain
until each client detaches via connection close or `Target.detachFromTarget`). -/
theorem closePage_preserves_sessionManager (app : FleetApp) (browserId : BrowserId)
    (pageId : PageId) : (app.closePage browserId pageId).sm = app.sm := by
  unfold FleetApp.closePage
  split
  · rfl
  · split <;> rfl

end Magi
